import Mathlib

/-!
Verification development for the baecc snowfall estimation engine
(`read.py`, `snowfall.py`).

Modelling conventions used throughout this file:
* timestamps are minutes, embedded as naturals;
* a pandas `Series`/`DataFrame` indexed by time becomes an association
  list `List (ℕ × _)` ordered by timestamp (or, where only pointwise
  arithmetic matters, a function out of an index type);
* IEEE float special values are modelled by the inductive `Fp`
  (the sources run numpy/pandas with warnings suppressed, so a division
  by zero yields a signed infinity and an invalid operation yields NaN,
  never an exception);
* external numeric collaborators (scipy `curve_fit`, `minimize`,
  `gaussian_kde`, `scipy.special.gamma`, float `sqrt` and `**`) are
  opaque and therefore appear as function parameters of the embedded
  operations;
* a raised Python exception is an `Except.error` value.
-/

/-- Float value model: NaN, +inf, -inf or a finite value. Finite
arithmetic is carried exactly in ℚ; the file only ever evaluates these
operations at points where the float computation is itself exact. -/
inductive Fp where
  | nan : Fp
  | inf : Fp
  | ninf : Fp
  | fin : ℚ → Fp
deriving DecidableEq

/-- Float negation. -/
def fneg : Fp → Fp
  | Fp.nan => Fp.nan
  | Fp.inf => Fp.ninf
  | Fp.ninf => Fp.inf
  | Fp.fin a => Fp.fin (-a)

/-- Float addition (NaN-absorbing, inf + (-inf) = NaN). -/
def fadd : Fp → Fp → Fp
  | Fp.nan, _ => Fp.nan
  | _, Fp.nan => Fp.nan
  | Fp.fin a, Fp.fin b => Fp.fin (a + b)
  | Fp.inf, Fp.ninf => Fp.nan
  | Fp.ninf, Fp.inf => Fp.nan
  | Fp.inf, _ => Fp.inf
  | Fp.ninf, _ => Fp.ninf
  | Fp.fin _, Fp.inf => Fp.inf
  | Fp.fin _, Fp.ninf => Fp.ninf

/-- Float subtraction. -/
def fsub (x y : Fp) : Fp := fadd x (fneg y)

/-- Float multiplication (inf * 0 = NaN). -/
def fmul : Fp → Fp → Fp
  | Fp.nan, _ => Fp.nan
  | _, Fp.nan => Fp.nan
  | Fp.fin a, Fp.fin b => Fp.fin (a * b)
  | Fp.inf, Fp.inf => Fp.inf
  | Fp.inf, Fp.ninf => Fp.ninf
  | Fp.ninf, Fp.inf => Fp.ninf
  | Fp.ninf, Fp.ninf => Fp.inf
  | Fp.inf, Fp.fin b => if b = 0 then Fp.nan else if 0 < b then Fp.inf else Fp.ninf
  | Fp.ninf, Fp.fin b => if b = 0 then Fp.nan else if 0 < b then Fp.ninf else Fp.inf
  | Fp.fin a, Fp.inf => if a = 0 then Fp.nan else if 0 < a then Fp.inf else Fp.ninf
  | Fp.fin a, Fp.ninf => if a = 0 then Fp.nan else if 0 < a then Fp.ninf else Fp.inf

/-- Float division: a nonzero finite value divided by zero is a signed
infinity, 0/0 is NaN (numpy semantics with warnings suppressed). -/
def fdiv : Fp → Fp → Fp
  | Fp.nan, _ => Fp.nan
  | _, Fp.nan => Fp.nan
  | Fp.fin a, Fp.fin b =>
      if b = 0 then (if a = 0 then Fp.nan else if 0 < a then Fp.inf else Fp.ninf)
      else Fp.fin (a / b)
  | Fp.fin _, Fp.inf => Fp.fin 0
  | Fp.fin _, Fp.ninf => Fp.fin 0
  | Fp.inf, Fp.fin b => if 0 ≤ b then Fp.inf else Fp.ninf
  | Fp.ninf, Fp.fin b => if 0 ≤ b then Fp.ninf else Fp.inf
  | Fp.inf, Fp.inf => Fp.nan
  | Fp.inf, Fp.ninf => Fp.nan
  | Fp.ninf, Fp.inf => Fp.nan
  | Fp.ninf, Fp.ninf => Fp.nan

/-- Exact square root on ℚ, correct on rationals whose numerator and
denominator are perfect squares (the only points where this file
evaluates it; there the float `np.sqrt` is exact as well). -/
def ratSqrt (q : ℚ) : ℚ := (Nat.sqrt q.num.toNat : ℚ) / (Nat.sqrt q.den : ℚ)

/-- Float square root: NaN on NaN and on negative arguments. -/
def fsqrt : Fp → Fp
  | Fp.nan => Fp.nan
  | Fp.inf => Fp.inf
  | Fp.ninf => Fp.nan
  | Fp.fin a => if a < 0 then Fp.nan else Fp.fin (ratSqrt a)

/-- Float strict less-than: any comparison with NaN is false. -/
def flt : Fp → Fp → Bool
  | Fp.nan, _ => false
  | _, Fp.nan => false
  | Fp.fin a, Fp.fin b => decide (a < b)
  | Fp.inf, _ => false
  | Fp.ninf, Fp.ninf => false
  | Fp.ninf, _ => true
  | Fp.fin _, Fp.inf => true
  | Fp.fin _, Fp.ninf => false

namespace Case

/-- `Case.mu` (snowfall.py): `mu = ((7-11*eta)-np.sqrt(eta**2+14*eta+1))/(2*(eta-1))`,
at the level of float values (the pandas arithmetic is elementwise, so a
single element is modelled).  `eta**2` is `fmul eta eta` (float `x**2`
is exact multiplication). -/
def muF (eta : Fp) : Fp :=
  fdiv
    (fsub (fsub (Fp.fin 7) (fmul (Fp.fin 11) eta))
          (fsqrt (fadd (fadd (fmul eta eta) (fmul (Fp.fin 14) eta)) (Fp.fin 1))))
    (fmul (Fp.fin 2) (fsub eta (Fp.fin 1)))

/-- `Case.density` (snowfall.py).  The three time series it combines are
parameters, aligned on a common index type `ι`:
`gauge i` is `pluvio.amount(rule=self.rule)` at window `i`,
`pip i` is `self.amount(params=[1], simple=True)` (the particle-based
accumulation with `rho = 1`), `intens i` is `pluvio.intensity()` and
`pipIntens i` is `self.intensity()` (used only when `pip_filter`).
Mirrors the source line by line: `pluvio_filter` and `pip_filter` NaN
out the denominator where the intensity is below 0.1 mm/h, then
`rho = gauge / pip`, then `rho[rho > rhomax] = nan` when `rhomax` is
given, then `rho.replace(np.inf, np.nan)`.  The `msger` caching wrapper
is behaviourally transparent and omitted. -/
def density (ι : Type) (gauge pip intens pipIntens : ι → Fp)
    (pluvio_filter pip_filter : Bool) (rhomax : Option ℚ) (i : ι) : Fp :=
  let denom0 := if pluvio_filter && flt (intens i) (Fp.fin (1/10)) then Fp.nan else pip i
  let denom := if pip_filter && flt (pipIntens i) (Fp.fin (1/10)) then Fp.nan else denom0
  let rho0 := fdiv (gauge i) denom
  let rho1 := match rhomax with
    | some m => if flt (Fp.fin m) rho0 then Fp.nan else rho0
    | none => rho0
  if rho1 = Fp.inf then Fp.nan else rho1

end Case

namespace Pluvio

/-- Model of a `Pluvio` object's state after `__init__`/`set_span`:
`samples` is `good_data()[amount_col]` — the (timestamp, acc_nrt) rows,
timestamps strictly increasing; `buffer` is the timeshift buffer set by
`set_span` (0 after `__init__`); `bias` is the accumulated bias.
The default `shift_periods = 0` is assumed, so every `tshift` in the
source is the identity and is dropped from the embedding. -/
structure PluvioData where
  samples : List (ℕ × ℚ)
  buffer : ℕ
  bias : ℚ
deriving DecidableEq

/-- The sample timestamps (`good_data().index`). -/
def sampleTimes (p : PluvioData) : List ℕ := p.samples.map Prod.fst

/-- `Pluvio.dt_start`: `data.index[0] + buffer` (0 on empty data, where
the source would raise; the theorems below never use that case). -/
def dtStart (p : PluvioData) : ℕ := ((p.samples.head?.map Prod.fst).getD 0) + p.buffer

/-- `Pluvio.dt_end`: `data.index[-1] - buffer`. -/
def dtEnd (p : PluvioData) : ℕ := ((p.samples.getLast?.map Prod.fst).getD 0) - p.buffer

/-- `pd.stats.moments.rolling_sum(am, window=2).iloc[1::2]` on the
positive-amount series: consecutive pairs are summed and labelled with
the second timestamp of each pair; a trailing unpaired element is
dropped (`n_combined_intervals = 2`). -/
def pairSums : List (ℕ × ℚ) → List (ℕ × ℚ)
  | x :: y :: rest => (y.1, x.2 + y.2) :: pairSums rest
  | _ => []

/-- `Pluvio.amount(crop, shift)` in the variable-interval mode:
`am = rolling_sum(am[am > 0], window=2).iloc[1::2]`, then (identity)
timeshift, then optional crop to `[dt_start(), dt_end()]` (pandas label
slices are inclusive at both ends). -/
def amount (p : PluvioData) (crop : Bool) : List (ℕ × ℚ) :=
  let am := pairSums (p.samples.filter (fun x => decide (0 < x.2)))
  if crop then am.filter (fun x => decide (dtStart p ≤ x.1) && decide (x.1 ≤ dtEnd p)) else am

/-- Differences of consecutive timestamps, continuing from `prev`. -/
def diffsFrom (prev : ℕ) : List ℕ → List (ℕ × Option ℕ)
  | [] => []
  | t :: rest => (t, some (t - prev)) :: diffsFrom t rest

/-- `Series(index).diff()`: `none` models the leading NaT. -/
def diffs : List ℕ → List (ℕ × Option ℕ)
  | [] => []
  | t :: rest => (t, none) :: diffsFrom t rest

/-- `Pluvio.tdelta`: diff of the uncropped `amount` timestamps, deltas
above one hour clamped to one hour, cropped to `[dt_start(), dt_end()]`,
missing values filled with one hour.  Durations are minutes. -/
def tdelta (p : PluvioData) : List (ℕ × ℕ) :=
  ((diffs ((amount p false).map Prod.fst)).map
      (fun td => (td.1, td.2.map (fun d => min d 60)))).filter
    (fun td => decide (dtStart p ≤ td.1) && decide (td.1 ≤ dtEnd p)) |>.map
      (fun td => (td.1, td.2.getD 60))

/-- The group labels `ticktime = self.amount().index` used by `grouper`. -/
def tickTime (p : PluvioData) : List ℕ := (amount p true).map Prod.fst

/-- First element of `l` that is `≥ t` (for a sorted `l`, the least such
element); models `Series(ticktime, index=ticktime).reindex(index).bfill()`
at one label of `index`. -/
def firstGE (l : List ℕ) (t : ℕ) : Option ℕ := l.find? (fun u => decide (t ≤ u))

/-- `Pluvio.grouper`: every raw sample timestamp is backfilled with the
next `ticktime` label at or after it (samples after the last label get
NaN and are dropped by `notnull`), the series is cropped to
`[dt_start(), dt_end()]`, and finally sliced `[:last_index]` where
`last_index = tdelta().index[-1]` — which raises `IndexError` when the
`tdelta` index is empty.  (The boolean `ticks` series is used by the
source only for its index, which equals `sampleTimes`; `ticktime` labels
are always a subset of the sample timestamps, so pandas `reindex`
dropping alien labels is a no-op.) -/
def grouper (p : PluvioData) : Except String (List (ℕ × ℕ)) :=
  match (tdelta p).getLast? with
  | none => Except.error "IndexError"
  | some lastd =>
      Except.ok
        ((((sampleTimes p).filterMap
            (fun s => (firstGE (tickTime p) s).map (fun g => (s, g)))).filter
          (fun sg => decide (dtStart p ≤ sg.1) && decide (sg.1 ≤ dtEnd p))).filter
            (fun sg => decide (sg.1 ≤ lastd.1)))

end Pluvio

namespace PipV

/-- A stored velocity fit: the fit family is identified by its fitted
parameter vector (`fit.params`; the functional form itself plays no role
in the claims below).  `fit.py` is not part of the sources, so the
default `PolFit()` parameter vector is always a parameter, never a
constant. -/
structure VFit where
  params : List ℚ
deriving DecidableEq

/-- The loop body of `PipV.find_fits` (read.py): each group is either a
successful `find_fit` result (`some fit`) or a `RuntimeError` from the
nonlinear solver (`none`).  On failure: if no fit has been stored yet or
`empty_on_fail` is set, the default (empty) fit is stored, otherwise the
previously stored fit `fits[-1]` is reused.  (The parallel `std`/`hwfm`
bookkeeping is dropped: the claims are about the stored fits.) -/
def findFitsLoop (defaultFit : VFit) (empty_on_fail : Bool) :
    List VFit → List (Option VFit) → List VFit
  | fits, [] => fits
  | fits, o :: rest =>
    let newfit := match o with
      | some f => f
      | none => if fits.isEmpty || empty_on_fail then defaultFit
                else fits.getLast?.getD defaultFit
    findFitsLoop defaultFit empty_on_fail (fits ++ [newfit]) rest

/-- `PipV.find_fits` over the per-group fit outcomes, with the
`empty_on_fail` keyword (whose source default is `True`). -/
def find_fits (defaultFit : VFit) (empty_on_fail : Bool)
    (outcomes : List (Option VFit)) : List VFit :=
  findFitsLoop defaultFit empty_on_fail [] outcomes

/-- One particle record used for fitting: `(Wad_Dia, vel_v)`. -/
structure VPoint where
  wadDia : ℚ
  velV : ℚ
deriving DecidableEq

/-- What one call of `PipV.find_fit` (read.py) did and returned.
`params` is the fitted fit's `fit.params` (assigned unconditionally by
the source), the booleans record which branches ran. -/
structure FindFitOut where
  params : List ℚ
  usedCurveFit : Bool
  usedMinimize : Bool
  filtered : Bool
deriving DecidableEq

/-- `PipV.find_fit` control flow.  The external solvers are parameters:
`curveFitF` is `scipy.optimize.curve_fit` (raising is handled one level
up, in `find_fits`), `minimizeF quess pts` is
`minimize(fit.cost, fit.quess, method='Nelder-Mead', args=(d, v, sig)).x`,
`filterF` is the point filtering of `filter_outlier`, and `kdePeakF`
folds the whole `kde=True` sub-branch (`kde_peak` plus the
`bin_num_min` pruning).  `data.count()[0]` is the row count.  Source
flow: fewer than 5 rows with `use_curve_fit or kde` disables both and
skips the outlier filter (`elif`); otherwise the filter runs when
`filter_outliers`; finally either `curve_fit` or the Nelder-Mead
minimization produces `params`, which is always written into the fit.
(`cut_d=False` and the `name`/`std`/`hwfm` bookkeeping are omitted;
the latter is modelled with `resizeZeros` below.) -/
def find_fit (curveFitF : List VPoint → List ℚ)
    (minimizeF : List ℚ → List VPoint → List ℚ)
    (filterF : List VPoint → List VPoint)
    (kdePeakF : List VPoint → List VPoint)
    (quess : List ℚ) (data : List VPoint)
    (kde use_curve_fit filter_outliers : Bool) : FindFitOut :=
  let tooFew := decide (data.length < 5) && (use_curve_fit || kde)
  let kde2 := if tooFew then false else kde
  let ucf2 := if tooFew then false else use_curve_fit
  let doFilter := !tooFew && filter_outliers
  let data2 := if doFilter then filterF data else data
  let pts := if kde2 then kdePeakF data2 else data2
  if ucf2 then
    { params := curveFitF pts, usedCurveFit := true, usedMinimize := false,
      filtered := doFilter }
  else
    { params := minimizeF quess pts, usedCurveFit := false, usedMinimize := true,
      filtered := doFilter }

/-- `PipV.dbin` restricted by a velocity band: the source builds the
query `Wad_Dia > d - w/2 and Wad_Dia < d + w/2 and vel_v > vmin and
vel_v < vmax` (all strict). -/
def dbin (binwidth d vmin vmax : ℚ) (data : List VPoint) : List VPoint :=
  data.filter (fun pt =>
    decide (d - binwidth / 2 < pt.wadDia) && decide (pt.wadDia < d + binwidth / 2) &&
    decide (vmin < pt.velV) && decide (pt.velV < vmax))

/-- Pandas sample standard deviation (`ddof=1`): NaN on fewer than two
values, else the square root of the unbiased variance (`ratSqrt` stands
for the float square root; the claims below never depend on its value). -/
def sampleStdF (vs : List ℚ) : Fp :=
  if vs.length < 2 then Fp.nan
  else
    Fp.fin (ratSqrt
      (((vs.map (fun v => (v - vs.sum / (vs.length : ℚ)) ^ 2)).sum) / ((vs.length : ℚ) - 1)))

/-- One KDE-grid column of `PipV.filter_outlier`: `z` is the column of
densities `Z[:, i]`, `y` the velocity grid `Y[:, 0]`.  The velocities
kept are those with `z > z.max() * frac`. -/
def colBand (frac : ℚ) (y z : List ℚ) : List ℚ :=
  ((y.zip z).filterMap fun pr =>
    if decide (z.foldr max 0 * frac < pr.2) then some pr.1 else none)

/-- One iteration of the `filter_outlier` column loop: `none` models the
`continue` taken when no grid point clears the threshold (`y_fltr.size
== 0`); otherwise the kept points of the bin, their velocity standard
deviation, and the half width `0.5*(vmax - vmin)` are produced.  (KDE
densities are nonnegative and each grid column is nonempty, so the `0`
seed of `foldr max` in `colBand` matches `z.max()`.) -/
def colResult (binwidth frac : ℚ) (data : List VPoint) (y : List ℚ)
    (d : ℚ) (z : List ℚ) : Option (List VPoint × Fp × ℚ) :=
  match colBand frac y z with
  | [] => none
  | v :: vs =>
      let vmin := v
      let vmax := (v :: vs).getLast (List.cons_ne_nil v vs)
      let binData := dbin binwidth d vmin vmax data
      some (binData, sampleStdF (binData.map VPoint.velV), (vmax - vmin) / 2)

/-- `PipV.filter_outlier` (read.py): iterate over the KDE grid columns
`cols = [(X[0,i], Z[:,i])]` in order; columns whose band is empty are
skipped outright, the others append their bin data to `filtered` and
push one std and one half-width entry.  Returns
`(filtered, std array, HWfracM array)`. -/
def filterOutlierCols (binwidth frac : ℚ) (data : List VPoint) (y : List ℚ) :
    List (ℚ × List ℚ) → List VPoint × List Fp × List ℚ
  | [] => ([], [], [])
  | (d, z) :: rest =>
    let r := filterOutlierCols binwidth frac data y rest
    match colResult binwidth frac data y d z with
    | none => r
    | some (fd, s, h) => (fd ++ r.1, s :: r.2.1, h :: r.2.2)

/-- `numpy.ndarray.resize(n, refcheck=False)` as applied in
`PipV.find_fit` to the std/half-width vectors before they are indexed by
the full `dbins` grid: the array is padded with zeros (or truncated) to
length `n`. -/
def resizeZeros (n : ℕ) (v : List Fp) : List Fp :=
  v.take n ++ List.replicate (n - v.length) (Fp.fin 0)

end PipV

namespace Case

/-- `Case.sum_over_d` (snowfall.py): `Σ_d func(d) * dD[d]` over the PSD
bin centres; `bins` pairs each centre with its width `dD[d]`, `f` is the
integrand.  (The pandas series algebra is elementwise per timestamp, so
one timestamp is modelled; `series_zeros()` is the 0 start value and
`add(..., fill_value=0)` is addition.) -/
def sum_over_d (bins : List (ℚ × ℚ)) (f : ℚ → ℚ) : ℚ :=
  (bins.map (fun b => f b.1 * b.2)).sum

/-- `d_corr_pip` (snowfall.py): `d / phi` with `phi = 0.9`. -/
def d_corr_pip (d : ℚ) : ℚ := d / (9 / 10)

/-- `Case.n_moment(n)`: `sum_over_d(lambda d: d_corr_pip(d)**n * n(d))`;
`N d` is the binned concentration `self.n(d)`. -/
def n_moment (bins : List (ℚ × ℚ)) (N : ℚ → ℚ) (n : ℕ) : ℚ :=
  sum_over_d bins (fun d => d_corr_pip d ^ n * N d)

/-- `Case.eta`: `n_moment(4)**2 / (n_moment(6) * n_moment(2))`. -/
def eta (bins : List (ℚ × ℚ)) (N : ℚ → ℚ) : ℚ :=
  n_moment bins N 4 ^ 2 / (n_moment bins N 6 * n_moment bins N 2)

/-- `Case.mu` over exact values, with `np.sqrt` as the parameter
`sqrtF`: `((7 - 11*eta) - sqrt(eta**2 + 14*eta + 1)) / (2*(eta - 1))`.
(`Case.muF` above is the same formula at float-value level.) -/
def mu (sqrtF : ℚ → ℚ) (bins : List (ℚ × ℚ)) (N : ℚ → ℚ) : ℚ :=
  ((7 - 11 * eta bins N) - sqrtF (eta bins N ^ 2 + 14 * eta bins N + 1)) /
    (2 * (eta bins N - 1))

/-- `Case.lam`, with `scipy.special.gamma` as the parameter `gammaF`:
`sqrt(n_moment(2) * gamma(mu+5) / (n_moment(4) * gamma(mu+3)))`. -/
def lam (sqrtF gammaF : ℚ → ℚ) (bins : List (ℚ × ℚ)) (N : ℚ → ℚ) : ℚ :=
  sqrtF (n_moment bins N 2 * gammaF (mu sqrtF bins N + 5) /
    (n_moment bins N 4 * gammaF (mu sqrtF bins N + 3)))

/-- `Case.n_0`, with the float power `lam ** (mu + 3)` as the parameter
`powF`: `n_moment(2) * lam**(mu+3) / gamma(mu+3)`. -/
def n_0 (sqrtF gammaF : ℚ → ℚ) (powF : ℚ → ℚ → ℚ)
    (bins : List (ℚ × ℚ)) (N : ℚ → ℚ) : ℚ :=
  n_moment bins N 2 * powF (lam sqrtF gammaF bins N) (mu sqrtF bins N + 3) /
    gammaF (mu sqrtF bins N + 3)

/-- Spec formula (§4.3): raw moment `M_n = sum_over_d(d -> d^n · N(d))`
with bias-corrected diameters. -/
def specMoment (bins : List (ℚ × ℚ)) (N : ℚ → ℚ) (n : ℕ) : ℚ :=
  sum_over_d bins (fun d => d_corr_pip d ^ n * N d)

/-- Spec formula (§4.3): `eta = M4² / (M6 · M2)`. -/
def specEta (m2 m4 m6 : ℚ) : ℚ := m4 ^ 2 / (m6 * m2)

/-- Spec formula (§4.3):
`mu = ((7 − 11·eta) − sqrt(eta² + 14·eta + 1)) / (2·(eta − 1))`. -/
def specMu (sqrtF : ℚ → ℚ) (e : ℚ) : ℚ :=
  ((7 - 11 * e) - sqrtF (e ^ 2 + 14 * e + 1)) / (2 * (e - 1))

/-- Spec formula (§4.3): `lambda = sqrt(M2 · Γ(mu+5) / (M4 · Γ(mu+3)))`. -/
def specLam (sqrtF gammaF : ℚ → ℚ) (m2 m4 muv : ℚ) : ℚ :=
  sqrtF (m2 * gammaF (muv + 5) / (m4 * gammaF (muv + 3)))

/-- Spec formula (§4.3): `N0 = M2 · lambda^(mu+3) / Γ(mu+3)`. -/
def specN0 (gammaF : ℚ → ℚ) (powF : ℚ → ℚ → ℚ) (m2 lamv muv : ℚ) : ℚ :=
  m2 * powF lamv (muv + 3) / gammaF (muv + 3)

end Case

/-- A generic `InstrumentData` object, reduced to the fields
`between_datetime`/`set_span` touch: the time-indexed `data` rows (one
value column suffices). -/
structure Instr where
  data : List (ℕ × ℚ)
deriving DecidableEq

/-- `InstrumentData.set_span`: `self.data = self.data[dt_start:dt_end]`
(label slicing, inclusive at both ends). -/
def Instr.set_span (i : Instr) (s e : ℕ) : Instr :=
  { data := i.data.filter (fun x => decide (s ≤ x.1) && decide (x.1 ≤ e)) }

/-- `InstrumentData.between_datetime`: on `inplace=True` the receiver
itself is mutated and returned; on `inplace=False` a deep copy is
restricted and the receiver is untouched.  The returned pair is
(receiver after the call, returned object). -/
def Instr.between_datetime (i : Instr) (s e : ℕ) (inplace : Bool) : Instr × Instr :=
  if inplace then (Instr.set_span i s e, Instr.set_span i s e)
  else (i, Instr.set_span i s e)

namespace Pluvio

/-- The timeshift buffer `Pluvio.set_span` picks: two hours, demoted to
zero when the widened span does not fit inside the data range
(`dt_start - buffer < index[0] or dt_end + buffer > index[-1]`).
Timestamps are naturals, so `s - 120` truncates at 0; the concrete
inputs below keep `s ≥ 120`, matching the source's datetimes. -/
def chosenBuffer (p : PluvioData) (s e : ℕ) : ℕ :=
  let first := ((p.samples.head?).map Prod.fst).getD 0
  let last := ((p.samples.getLast?).map Prod.fst).getD 0
  if s - 120 < first || last < e + 120 then 0 else 120

/-- `Pluvio.set_span` (the non-`None` branch): keeps
`data[dt_start - buffer : dt_end + buffer]` and records the buffer. -/
def set_span (p : PluvioData) (s e : ℕ) : PluvioData :=
  { samples := p.samples.filter (fun x =>
      decide (s - chosenBuffer p s e ≤ x.1) && decide (x.1 ≤ e + chosenBuffer p s e)),
    buffer := chosenBuffer p s e,
    bias := p.bias }

/-- `between_datetime` as inherited by `Pluvio` (it dispatches to
`Pluvio.set_span`); pair as in `Instr.between_datetime`. -/
def between_datetime (p : PluvioData) (s e : ℕ) (inplace : Bool) :
    PluvioData × PluvioData :=
  if inplace then (set_span p s e, set_span p s e)
  else (p, set_span p s e)

end Pluvio

/-- A `Case` object, reduced to the fields `Case.between_datetime`
touches: its instrument bundle (`pluvio`, `dsd`, `pipv`), the
`varinterval` flag and the cached `_rule` (the grouper output when
variable-interval).  The `instr[...].case` back-pointers carry no data
and are omitted. -/
structure CaseModel where
  pluvio : Pluvio.PluvioData
  dsd : Instr
  pipv : Instr
  varinterval : Bool
  rule : Option (List (ℕ × ℕ))
deriving DecidableEq

namespace Case

/-- `Case.between_datetime` (snowfall.py) with the default
`autoshift=False, autobias=False`: `m` is `self` when `inplace` else a
deep copy; every instrument is restricted in place on `m`, `m`'s pluvio
bias is zeroed, and `m.reset()` clears the cached rule when
`varinterval`.  The returned pair is (receiver after the call, returned
object). -/
def between_datetime (c : CaseModel) (s e : ℕ) (inplace : Bool) :
    CaseModel × CaseModel :=
  let pl := Pluvio.set_span c.pluvio s e
  let m : CaseModel :=
    { pluvio := { samples := pl.samples, buffer := pl.buffer, bias := 0 },
      dsd := Instr.set_span c.dsd s e,
      pipv := Instr.set_span c.pipv s e,
      varinterval := c.varinterval,
      rule := if c.varinterval then none else c.rule }
  if inplace then (m, m) else (c, m)

end Case

/-- Helper: with `empty_on_fail` set, every loop step of `find_fits`
stores the successful fit or the default fit. -/
theorem findFitsLoop_empty_on_fail (d : PipV.VFit) :
    ∀ (outcomes : List (Option PipV.VFit)) (fits : List PipV.VFit),
      PipV.findFitsLoop d true fits outcomes = fits ++ outcomes.map (fun o => o.getD d)
  | [], fits => by simp [PipV.findFitsLoop]
  | o :: rest, fits => by
      cases o <;>
        simp [PipV.findFitsLoop, findFitsLoop_empty_on_fail d rest]

/-- C1 (amended): with its default arguments (`empty_on_fail=True`),
`PipV.find_fits` stores, for every group whose fit raises a solver
non-convergence error, the family's default/empty fit — regardless of
whether any earlier group has a successful fit; successful groups store
their own fit.  The reuse-previous-fit fallback of the claim runs only
when `empty_on_fail=False`. -/
theorem find_fits_default_empty_on_fail (d : PipV.VFit)
    (outcomes : List (Option PipV.VFit)) :
    PipV.find_fits d true outcomes = outcomes.map (fun o => o.getD d) := by
  simpa [PipV.find_fits] using findFitsLoop_empty_on_fail d outcomes []

/-- C1 counterexample: three consecutive groups — a successful first
group (fit `[1]`), a failing middle group, a successful third group —
processed with the default `empty_on_fail=True`.  The middle group's
stored fit is the default fit `[0]`, not the first group's fit `[1]` as
the claim requires. -/
theorem find_fits_default_not_previous_cex :
    PipV.find_fits ⟨[0]⟩ true [some ⟨[1]⟩, none, some ⟨[3]⟩]
      = [⟨[1]⟩, ⟨[0]⟩, ⟨[3]⟩]
  ∧ (⟨[0]⟩ : PipV.VFit) ≠ ⟨[1]⟩ := by decide

/-- C3 counterexample: when `eta` equals 1 the code's `mu` is not a
missing value. -/
theorem mu_eta_one_cex : Case.muF (Fp.fin 1) ≠ Fp.nan := by
  have h16 : Nat.sqrt (Int.toNat 16) = 4 := by
    rw [show Int.toNat 16 = 16 from rfl, show (16:ℕ) = 4 * 4 from by norm_num,
      Nat.sqrt_eq]
  norm_num [Case.muF, fmul, fadd, fsub, fneg, fsqrt, fdiv, ratSqrt, h16]
  decide

/-- C3 (amended): at `eta = 1`, `Case.mu` raises no exception but
evaluates to negative infinity: the numerator is
`(7 - 11) - sqrt(16) = -8` and the denominator `2*(eta-1) = 0`, and the
float division `-8/0` is `-inf`, not NaN. -/
theorem mu_eta_one_neg_inf : Case.muF (Fp.fin 1) = Fp.ninf := by
  have h16 : Nat.sqrt (Int.toNat 16) = 4 := by
    rw [show Int.toNat 16 = 16 from rfl, show (16:ℕ) = 4 * 4 from by norm_num,
      Nat.sqrt_eq]
  norm_num [Case.muF, fmul, fadd, fsub, fneg, fsqrt, fdiv, ratSqrt, h16]

/-- C4 (amended): on fewer than 5 points (with the default
`kde=False, use_curve_fit=True, filter_outliers=True`), `PipV.find_fit`
disables KDE and `curve_fit` and skips outlier filtering, but does not
return the family's default parameters: it estimates parameters by the
Nelder-Mead minimization of the fit family's cost on the raw sparse
points, starting from the family's initial guess, and stores that
result. -/
theorem find_fit_sparse_minimize (curveFitF : List PipV.VPoint → List ℚ)
    (minimizeF : List ℚ → List PipV.VPoint → List ℚ)
    (filterF kdePeakF : List PipV.VPoint → List PipV.VPoint)
    (quess : List ℚ) (data : List PipV.VPoint) (h : data.length < 5) :
    PipV.find_fit curveFitF minimizeF filterF kdePeakF quess data false true true
      = { params := minimizeF quess data, usedCurveFit := false,
          usedMinimize := true, filtered := false } := by
  simp [PipV.find_fit, h]

/-- Witness for `find_fit_sparse_minimize` at a three-point input. -/
theorem find_fit_sparse_minimize_witness :
    ([⟨1,1⟩, ⟨2,2⟩, ⟨3,3⟩] : List PipV.VPoint).length < 5
  ∧ PipV.find_fit (fun _ => [7]) (fun g _ => g) id id [4]
      [⟨1,1⟩, ⟨2,2⟩, ⟨3,3⟩] false true true
      = { params := [4], usedCurveFit := false, usedMinimize := true,
          filtered := false } :=
  ⟨by decide, find_fit_sparse_minimize _ _ _ _ _ _ (by decide)⟩

/-- C4 counterexample: a three-point input (fewer than 5).  The claim
says fitting is skipped and the default parameters are returned; the
code runs the Nelder-Mead estimation on the sparse points
(`usedMinimize`) and stores its output — here the solver returns its
starting guess `[2,3]`, which is what the fit carries, untouched by any
default parameter vector. -/
theorem find_fit_sparse_estimates_cex :
    (PipV.find_fit (fun _ => [9]) (fun g _ => g) id id [2,3]
        [⟨1,1⟩, ⟨2,2⟩, ⟨3,3⟩] false true true).usedMinimize = true
  ∧ (PipV.find_fit (fun _ => [9]) (fun g _ => g) id id [2,3]
        [⟨1,1⟩, ⟨2,2⟩, ⟨3,3⟩] false true true).params = [2,3] := by decide

/-- C5 (amended): when the tick series is empty (no nonzero gauge
accumulation sample, so `amount()` is empty), `Pluvio.grouper` does not
return an empty grouping: it raises `IndexError`, because
`last_index = self.tdelta().index[-1]` indexes into the empty `tdelta`
index. -/
theorem grouper_empty_ticks_error (p : Pluvio.PluvioData)
    (h : ∀ x ∈ p.samples, ¬ (0 < x.2)) :
    Pluvio.grouper p = Except.error "IndexError" := by
  have hfil : p.samples.filter (fun x => decide (0 < x.2)) = [] := by
    rw [List.filter_eq_nil_iff]
    intro a ha
    simpa using h a ha
  have hamount : Pluvio.amount p false = [] := by
    simp [Pluvio.amount, hfil, Pluvio.pairSums]
  have htd : Pluvio.tdelta p = [] := by
    simp [Pluvio.tdelta, hamount, Pluvio.diffs]
  simp [Pluvio.grouper, htd]

/-- Witness for `grouper_empty_ticks_error`. -/
theorem grouper_empty_ticks_error_witness :
    (∀ x ∈ ([(1,0),(2,0),(3,0)] : List (ℕ × ℚ)), ¬ (0 < x.2))
  ∧ Pluvio.grouper ⟨[(1,0),(2,0),(3,0)],0,0⟩ = Except.error "IndexError" :=
  ⟨by decide, grouper_empty_ticks_error _ (by decide)⟩

/-- C5 counterexample: two samples, both with zero accumulation.  The
claim requires an empty grouping; the code raises instead. -/
theorem grouper_empty_ticks_cex :
    Pluvio.grouper ⟨[(0,0),(5,0)],0,0⟩ = Except.error "IndexError"
  ∧ ∀ l, Pluvio.grouper ⟨[(0,0),(5,0)],0,0⟩ ≠ Except.ok l := by
  refine ⟨rfl, fun l h => ?_⟩
  rw [show Pluvio.grouper ⟨[(0,0),(5,0)],0,0⟩ = Except.error "IndexError" from rfl] at h
  exact Except.noConfusion h

/-- C6: the derived gamma parameters satisfy the spec's closed forms:
`M_n` is `sum_over_d(d ↦ d^n·N(d))` on bias-corrected diameters,
`eta = M4²/(M6·M2)`,
`mu = ((7−11·eta) − sqrt(eta²+14·eta+1))/(2·(eta−1))`,
`lambda = sqrt(M2·Γ(mu+5)/(M4·Γ(mu+3)))`, and
`N0 = M2·lambda^(mu+3)/Γ(mu+3)` — for any PSD table, bin grid and
interpretation of the external `sqrt`, `Γ` and float power. -/
theorem gamma_params_closed_forms (bins : List (ℚ × ℚ)) (N : ℚ → ℚ)
    (sqrtF gammaF : ℚ → ℚ) (powF : ℚ → ℚ → ℚ) :
    (∀ n : ℕ, Case.n_moment bins N n = Case.specMoment bins N n)
  ∧ Case.eta bins N
      = Case.specEta (Case.specMoment bins N 2) (Case.specMoment bins N 4)
          (Case.specMoment bins N 6)
  ∧ Case.mu sqrtF bins N = Case.specMu sqrtF (Case.eta bins N)
  ∧ Case.lam sqrtF gammaF bins N
      = Case.specLam sqrtF gammaF (Case.specMoment bins N 2)
          (Case.specMoment bins N 4) (Case.mu sqrtF bins N)
  ∧ Case.n_0 sqrtF gammaF powF bins N
      = Case.specN0 gammaF powF (Case.specMoment bins N 2)
          (Case.lam sqrtF gammaF bins N) (Case.mu sqrtF bins N) :=
  ⟨fun _ => rfl, rfl, rfl, rfl, rfl⟩

/-- Helper: filtering on the first components commutes with projecting
them out. -/
theorem map_fst_filter_fst {β : Type} (q : ℕ → Bool) (l : List (ℕ × β)) :
    (l.filter (fun x => q x.1)).map Prod.fst = (l.map Prod.fst).filter q := by
  induction l with
  | nil => rfl
  | cons a t ih => by_cases h : q a.1 <;> simp [List.filter_cons, h, ih]

/-- Helper: the clamp/crop/fill pipeline of `tdelta` keeps exactly the
cropped timestamps. -/
theorem clamp_crop_fill_fst (q : ℕ → Bool) (l : List (ℕ × Option ℕ)) :
    (((l.map (fun td => (td.1, td.2.map (fun d => min d 60)))).filter
        (fun td => q td.1)).map (fun td => (td.1, td.2.getD 60))).map Prod.fst
      = (l.map Prod.fst).filter q := by
  induction l with
  | nil => rfl
  | cons a t ih => by_cases h : q a.1 <;> simp [List.filter_cons, h, ih]

/-- Helper: `diffsFrom` keeps the timestamps. -/
theorem diffsFrom_map_fst (prev : ℕ) (ts : List ℕ) :
    (Pluvio.diffsFrom prev ts).map Prod.fst = ts := by
  induction ts generalizing prev with
  | nil => rfl
  | cons t rest ih => simp [Pluvio.diffsFrom, ih]

/-- Helper: `diffs` keeps the timestamps. -/
theorem diffs_map_fst (ts : List ℕ) : (Pluvio.diffs ts).map Prod.fst = ts := by
  cases ts <;> simp [Pluvio.diffs, diffsFrom_map_fst]

/-- Helper: the clamp/crop/fill pipeline of `tdelta` only produces
durations of at most 60 minutes. -/
theorem clamp_crop_fill_le (q : ℕ → Bool) (l : List (ℕ × Option ℕ)) :
    ∀ x ∈ ((l.map (fun td => (td.1, td.2.map (fun d => min d 60)))).filter
        (fun td => q td.1)).map (fun td => (td.1, td.2.getD 60)), x.2 ≤ 60 := by
  induction l with
  | nil => simp
  | cons a t ih =>
      intro x hx
      rw [List.map_cons, List.filter_cons] at hx
      by_cases h : q a.1 = true
      · rw [if_pos h, List.map_cons] at hx
        rcases List.mem_cons.mp hx with h1 | h2
        · subst h1
          cases a.2 <;> simp [min_le_right]
        · exact ih x h2
      · rw [if_neg h] at hx
        exact ih x hx

/-- C9: every interval duration in `Pluvio.tdelta` is at most one hour
(gaps above one hour are clamped by `delta[delta > longest_delta] =
longest_delta`, the undefined leading delta is filled by
`fillna(longest_delta)`), and no interval of the amount series inside
`[dt_start(), dt_end()]` is dropped: the `tdelta` timestamps are exactly
the cropped `amount` timestamps. -/
theorem tdelta_at_most_hour (p : Pluvio.PluvioData) :
    (∀ x ∈ Pluvio.tdelta p, x.2 ≤ 60)
  ∧ (Pluvio.tdelta p).map Prod.fst
      = ((Pluvio.amount p false).map Prod.fst).filter
          (fun t => decide (Pluvio.dtStart p ≤ t) && decide (t ≤ Pluvio.dtEnd p)) := by
  constructor
  · intro x hx
    have hx2 : x ∈ (((Pluvio.diffs ((Pluvio.amount p false).map Prod.fst)).map
        (fun td => (td.1, td.2.map (fun d => min d 60)))).filter
          (fun td => decide (Pluvio.dtStart p ≤ td.1) && decide (td.1 ≤ Pluvio.dtEnd p))).map
            (fun td => (td.1, td.2.getD 60)) := hx
    exact clamp_crop_fill_le
      (fun t => decide (Pluvio.dtStart p ≤ t) && decide (t ≤ Pluvio.dtEnd p))
      (Pluvio.diffs ((Pluvio.amount p false).map Prod.fst)) x hx2
  · have h := clamp_crop_fill_fst
      (fun t => decide (Pluvio.dtStart p ≤ t) && decide (t ≤ Pluvio.dtEnd p))
      (Pluvio.diffs ((Pluvio.amount p false).map Prod.fst))
    rw [diffs_map_fst] at h
    exact h

/-- Witness for `tdelta_at_most_hour`: a 200-minute gap between combined
ticks is reported as 60 minutes. -/
theorem tdelta_at_most_hour_witness :
    ((300, 60) ∈ Pluvio.tdelta ⟨[(0,1),(10,1),(100,1),(300,1)],0,0⟩)
  ∧ ((300, 60) : ℕ × ℕ).2 ≤ 60 :=
  ⟨by decide, (tdelta_at_most_hour ⟨[(0,1),(10,1),(100,1),(300,1)],0,0⟩).1 _ (by decide)⟩

/-- Helper: `pairSums` keeps a subsequence of the timestamps. -/
theorem pairSums_fst_sublist : ∀ l : List (ℕ × ℚ),
    List.Sublist ((Pluvio.pairSums l).map Prod.fst) (l.map Prod.fst)
  | [] => by simp [Pluvio.pairSums]
  | [x] => by simp [Pluvio.pairSums]
  | x :: y :: rest => by
      simpa [Pluvio.pairSums] using ((pairSums_fst_sublist rest).cons₂ y.1).cons x.1

/-- Helper: the group labels `ticktime` are a strictly sorted
subsequence of the sample timestamps. -/
theorem tickTime_sorted (p : Pluvio.PluvioData)
    (hs : (Pluvio.sampleTimes p).Pairwise (· < ·)) :
    (Pluvio.tickTime p).Pairwise (· < ·) := by
  have h1 : Pluvio.tickTime p
      = ((Pluvio.pairSums (p.samples.filter (fun x => decide (0 < x.2)))).map
          Prod.fst).filter
        (fun t => decide (Pluvio.dtStart p ≤ t) && decide (t ≤ Pluvio.dtEnd p)) := by
    show ((Pluvio.pairSums (p.samples.filter (fun x => decide (0 < x.2)))).filter
        (fun x => decide (Pluvio.dtStart p ≤ x.1) && decide (x.1 ≤ Pluvio.dtEnd p))).map
          Prod.fst = _
    exact map_fst_filter_fst
      (fun t => decide (Pluvio.dtStart p ≤ t) && decide (t ≤ Pluvio.dtEnd p)) _
  have h2 : List.Sublist (Pluvio.tickTime p) (Pluvio.sampleTimes p) := by
    rw [h1]
    refine (List.filter_sublist _).trans ?_
    refine (pairSums_fst_sublist _).trans ?_
    exact (List.filter_sublist _).map Prod.fst
  exact hs.sublist h2

/-- Helper: on a strictly sorted list, `find?` of the predicate `t ≤ ·`
returns the least element at or after `t`. -/
theorem find_ge_least (t : ℕ) : ∀ (l : List ℕ), l.Pairwise (· < ·) →
    ∀ g, Pluvio.firstGE l t = some g →
      g ∈ l ∧ t ≤ g ∧ ∀ u ∈ l, t ≤ u → g ≤ u
  | [], _, g, h => by simp [Pluvio.firstGE, List.find?] at h
  | a :: rest, hp, g, h => by
      by_cases hta : t ≤ a
      · have h2 : some a = some g := by
          rw [← h]
          exact (List.find?_cons_of_pos _ (by simpa using hta)).symm
        obtain rfl : a = g := by simpa using h2
        refine ⟨List.mem_cons_self .., hta, fun u hu _ => ?_⟩
        rcases List.mem_cons.mp hu with rfl | hu2
        · exact le_refl _
        · exact le_of_lt ((List.pairwise_cons.mp hp).1 u hu2)
      · have h2 : Pluvio.firstGE rest t = some g := by
          rw [← h]
          exact (List.find?_cons_of_neg _ (by simpa using hta)).symm
        obtain ⟨hg, htg, hleast⟩ :=
          find_ge_least t rest (List.pairwise_cons.mp hp).2 g h2
        refine ⟨List.mem_cons_of_mem a hg, htg, fun u hu htu => ?_⟩
        rcases List.mem_cons.mp hu with rfl | hu2
        · exact absurd htu hta
        · exact hleast u hu2 htu

/-- C2 (amended): for strictly increasing sample timestamps, whenever
`Pluvio.grouper` returns a grouping, each sample in it is assigned as
group id the timestamp of the *next* tick at or after the sample — the
tick that closes (ends) the group — where the ticks are the `amount()`
labels, i.e. every second nonzero-accumulation sample
(`n_combined_intervals = 2`); samples with no tick at or after them
(after the last tick) are dropped, not samples before the first tick. -/
theorem grouper_next_tick_group_id (p : Pluvio.PluvioData)
    (hs : (Pluvio.sampleTimes p).Pairwise (· < ·))
    (l : List (ℕ × ℕ)) (hok : Pluvio.grouper p = Except.ok l)
    (s g : ℕ) (hm : (s, g) ∈ l) :
    s ∈ Pluvio.sampleTimes p
  ∧ g ∈ Pluvio.tickTime p
  ∧ s ≤ g
  ∧ ∀ u ∈ Pluvio.tickTime p, s ≤ u → g ≤ u := by
  unfold Pluvio.grouper at hok
  split at hok
  next => exact absurd hok (by simp)
  next lastd hlast =>
    obtain rfl : _ = l := by injection hok
    have hm2 := (List.mem_filter.mp ((List.mem_filter.mp hm).1)).1
    obtain ⟨s2, hs2, hfm⟩ := List.mem_filterMap.mp hm2
    cases hfg : Pluvio.firstGE (Pluvio.tickTime p) s2 with
    | none => rw [hfg] at hfm; simp at hfm
    | some g2 =>
        rw [hfg] at hfm
        obtain ⟨rfl, rfl⟩ : s2 = s ∧ g2 = g := by
          simpa [Prod.ext_iff] using hfm
        obtain ⟨hg, htg, hleast⟩ :=
          find_ge_least s2 (Pluvio.tickTime p) (tickTime_sorted p hs) g2 hfg
        exact ⟨hs2, hg, htg, hleast⟩

/-- Witness for `grouper_next_tick_group_id`: ticks at 0, 10, 20, 30,
combined pairwise into group labels 10 and 30; the sample at 20 is
assigned group 30. -/
theorem grouper_next_tick_group_id_witness :
    (Pluvio.sampleTimes ⟨[(0,1),(10,1),(20,1),(30,1),(40,0)],0,0⟩).Pairwise (· < ·)
  ∧ Pluvio.grouper ⟨[(0,1),(10,1),(20,1),(30,1),(40,0)],0,0⟩
      = Except.ok [(0,10),(10,10),(20,30),(30,30)]
  ∧ ((20, 30) : ℕ × ℕ) ∈ [((0,10) : ℕ × ℕ),(10,10),(20,30),(30,30)]
  ∧ (20 ∈ Pluvio.sampleTimes ⟨[(0,1),(10,1),(20,1),(30,1),(40,0)],0,0⟩
      ∧ 30 ∈ Pluvio.tickTime ⟨[(0,1),(10,1),(20,1),(30,1),(40,0)],0,0⟩
      ∧ 20 ≤ 30
      ∧ ∀ u ∈ Pluvio.tickTime ⟨[(0,1),(10,1),(20,1),(30,1),(40,0)],0,0⟩,
          20 ≤ u → 30 ≤ u) :=
  ⟨by decide, by rfl, by decide,
   grouper_next_tick_group_id _ (by decide) _ (by rfl) 20 30 (by decide)⟩

/-- C2 counterexample: nonzero-accumulation ticks at 0, 10, 20, 30 and a
zero sample at 40.  The claim predicts the sample at tick 0 to open and
label its own group (pair `(0, 0)`), and predicts no sample before the
first tick to survive; the code instead labels the sample at 0 with the
*next* combined tick, 10 (pair `(0, 10)`), and drops the sample at 40
that lies after the last tick. -/
theorem grouper_opening_tick_cex :
    Pluvio.grouper ⟨[(0,1),(10,1),(20,1),(30,1),(40,0)],0,0⟩
      = Except.ok [(0,10),(10,10),(20,30),(30,30)]
  ∧ ((0,0) : ℕ × ℕ) ∉ [((0,10) : ℕ × ℕ),(10,10),(20,30),(30,30)]
  ∧ ((0,10) : ℕ × ℕ) ∈ [((0,10) : ℕ × ℕ),(10,10),(20,30),(30,30)] :=
  ⟨by rfl, by decide, by decide⟩

/-- Helper: dividing by NaN gives NaN. -/
theorem fdiv_nan_right (x : Fp) : fdiv x Fp.nan = Fp.nan := by
  cases x <;> rfl

/-- Helper: a NaN or nonnegative finite numerator never divides to
negative infinity. -/
theorem fdiv_nonneg_ne_ninf (x y : Fp)
    (hx : x = Fp.nan ∨ ∃ q : ℚ, 0 ≤ q ∧ x = Fp.fin q) : fdiv x y ≠ Fp.ninf := by
  rcases hx with h | ⟨q, hq, h⟩ <;> subst h
  · cases y <;> simp [fdiv]
  · cases y with
    | nan => simp [fdiv]
    | inf => simp [fdiv]
    | ninf => simp [fdiv]
    | fin b =>
        simp only [fdiv]
        split_ifs with h1 h2 h3
        · simp
        · simp
        · exact absurd (lt_of_le_of_ne hq (Ne.symm h2)) h3
        · simp

/-- Proof-side regrouping of the tail of `Case.density`: the `rhomax`
capping step followed by `replace(np.inf, np.nan)`, as a function of the
raw ratio. -/
def densityPost (rhomax : Option ℚ) (x : Fp) : Fp :=
  let rho1 := match rhomax with
    | some m => if flt (Fp.fin m) x then Fp.nan else x
    | none => x
  if rho1 = Fp.inf then Fp.nan else rho1

/-- Helper: `Case.density` factors through `densityPost`. -/
theorem density_eq_post (ι : Type) (gauge pip intens pipIntens : ι → Fp)
    (pl pf : Bool) (rhomax : Option ℚ) (i : ι) :
    Case.density ι gauge pip intens pipIntens pl pf rhomax i
      = densityPost rhomax (fdiv (gauge i)
          (if pf && flt (pipIntens i) (Fp.fin (1/10)) then Fp.nan
           else if pl && flt (intens i) (Fp.fin (1/10)) then Fp.nan else pip i)) := rfl

/-- Helper: the capping/replacement tail maps NaN to NaN. -/
theorem densityPost_nan (rhomax : Option ℚ) : densityPost rhomax Fp.nan = Fp.nan := by
  cases rhomax <;> simp [densityPost, flt]

/-- Helper: the capping/replacement tail never returns +inf. -/
theorem densityPost_ne_inf (rhomax : Option ℚ) (x : Fp) :
    densityPost rhomax x ≠ Fp.inf := by
  cases rhomax <;> simp only [densityPost] <;> split_ifs <;> simp_all

/-- Helper: the capping/replacement tail never returns -inf unless fed
one. -/
theorem densityPost_ne_ninf (rhomax : Option ℚ) (x : Fp) (hx : x ≠ Fp.ninf) :
    densityPost rhomax x ≠ Fp.ninf := by
  cases rhomax <;> simp only [densityPost] <;> split_ifs <;> simp_all

/-- Helper: a finite value surviving the cap is at most the cap. -/
theorem densityPost_le_cap (m q : ℚ) (x : Fp)
    (h : densityPost (some m) x = Fp.fin q) : q ≤ m := by
  simp only [densityPost] at h
  by_cases hf : flt (Fp.fin m) x = true
  · rw [if_pos hf] at h
    simp at h
  · rw [if_neg hf] at h
    split_ifs at h with h2
    subst h
    exact not_lt.mp (by simpa [flt] using hf)

/-- Helper: an uncapped finite value passes through the tail. -/
theorem densityPost_none_fin (q : ℚ) : densityPost none (Fp.fin q) = Fp.fin q := by
  simp [densityPost]

/-- Helper: a finite value within the cap passes through the tail. -/
theorem densityPost_some_fin (m q : ℚ) (hle : q ≤ m) :
    densityPost (some m) (Fp.fin q) = Fp.fin q := by
  simp [densityPost, flt, not_lt.mpr hle]

/-- C7: `Case.density` with the default `pluvio_filter=True,
pip_filter=False` and a NaN-or-nonnegative gauge amount series (gauge
amounts are sums of positive tips): (1) every window whose gauge
intensity is below 0.1 mm/h is missing; (2)–(3) the result is never an
infinity (infinite divisions are replaced by NaN); (4) under a supplied
`rhomax` cap no returned finite value exceeds it; (5) on unfiltered
windows the result is exactly the gauge accumulation divided by the
rho=1 particle accumulation. -/
theorem density_filters_spec (ι : Type) (gauge pip intens pipIntens : ι → Fp)
    (rhomax : Option ℚ) (i : ι)
    (hg : gauge i = Fp.nan ∨ ∃ q : ℚ, 0 ≤ q ∧ gauge i = Fp.fin q) :
    (flt (intens i) (Fp.fin (1/10)) = true →
      Case.density ι gauge pip intens pipIntens true false rhomax i = Fp.nan)
  ∧ Case.density ι gauge pip intens pipIntens true false rhomax i ≠ Fp.inf
  ∧ Case.density ι gauge pip intens pipIntens true false rhomax i ≠ Fp.ninf
  ∧ (∀ m q, rhomax = some m →
      Case.density ι gauge pip intens pipIntens true false rhomax i = Fp.fin q → q ≤ m)
  ∧ (flt (intens i) (Fp.fin (1/10)) = false →
      ∀ q, fdiv (gauge i) (pip i) = Fp.fin q →
        (rhomax = none ∨ ∀ m, rhomax = some m → q ≤ m) →
        Case.density ι gauge pip intens pipIntens true false rhomax i = Fp.fin q) := by
  refine ⟨?_, ?_, ?_, ?_, ?_⟩
  · intro h
    rw [density_eq_post]
    simp only [h, Bool.false_and, Bool.true_and, if_false, if_true, Bool.false_eq_true]
    rw [fdiv_nan_right]
    exact densityPost_nan rhomax
  · rw [density_eq_post]
    exact densityPost_ne_inf rhomax _
  · rw [density_eq_post]
    exact densityPost_ne_ninf rhomax _ (fdiv_nonneg_ne_ninf _ _ hg)
  · intro m q hmx hq
    subst hmx
    rw [density_eq_post] at hq
    exact densityPost_le_cap m q _ hq
  · intro hint q hdiv hcap
    rw [density_eq_post]
    simp only [hint, Bool.false_and, Bool.true_and, if_false, Bool.false_eq_true]
    rw [hdiv]
    rcases hcap with hnone | hsome
    · subst hnone
      exact densityPost_none_fin q
    · cases hmx : rhomax with
      | none => exact densityPost_none_fin q
      | some m => exact densityPost_some_fin m q (hsome m hmx)

/-- Helper for C7 witness instantiation. -/
theorem density_filters_spec_witness :
    ((fun _ => Fp.fin 2) (0:ℕ) = Fp.nan
      ∨ ∃ q : ℚ, 0 ≤ q ∧ (fun _ => Fp.fin 2) (0:ℕ) = Fp.fin q)
  ∧ Case.density ℕ (fun _ => Fp.fin 2) (fun _ => Fp.fin 1) (fun _ => Fp.fin 1)
      (fun _ => Fp.nan) true false (some 5) 0 ≠ Fp.inf :=
  ⟨Or.inr ⟨2, by norm_num, rfl⟩,
   (density_filters_spec ℕ (fun _ => Fp.fin 2) (fun _ => Fp.fin 1) (fun _ => Fp.fin 1)
      (fun _ => Fp.nan) (some 5) 0 (Or.inr ⟨2, by norm_num, rfl⟩)).2.1⟩

/-- Helper: `resizeZeros` adds nothing but zeros. -/
theorem resizeZeros_mem (n : ℕ) (v : List Fp) (x : Fp)
    (h : x ∈ PipV.resizeZeros n v) : x ∈ v ∨ x = Fp.fin 0 := by
  rcases List.mem_append.mp h with h1 | h2
  · exact Or.inl (List.take_subset n v h1)
  · exact Or.inr (List.eq_of_mem_replicate h2)

/-- Helper: a column is skipped exactly when its threshold band is
empty. -/
theorem colResult_none_iff (binwidth frac : ℚ) (data : List PipV.VPoint)
    (y z : List ℚ) (d : ℚ) :
    PipV.colResult binwidth frac data y d z = none
      ↔ PipV.colBand frac y z = [] := by
  unfold PipV.colResult
  cases hb : PipV.colBand frac y z <;> simp

/-- C8 (amended): `PipV.filter_outlier` reports a standard deviation and
a half-width entry only for the KDE-grid diameter columns whose band is
nonempty — a column where no grid point clears `frac` × column maximum
is skipped entirely (`continue`), contributing no NaN placeholder, so
the returned arrays are shorter than the bin grid; `find_fit` then pads
them with zeros (`ndarray.resize`), so bins with no passing points read
0 (or a shifted neighbour's value), never NaN.  NaN appears in a std
entry only when a reported bin retains fewer than two points. -/
theorem filter_outlier_passing_columns (binwidth frac : ℚ)
    (data : List PipV.VPoint) (y : List ℚ) (cols : List (ℚ × List ℚ)) :
    (PipV.filterOutlierCols binwidth frac data y cols).2.1
        = cols.filterMap (fun c =>
            (PipV.colResult binwidth frac data y c.1 c.2).map (fun r => r.2.1))
  ∧ (PipV.filterOutlierCols binwidth frac data y cols).2.2
        = cols.filterMap (fun c =>
            (PipV.colResult binwidth frac data y c.1 c.2).map (fun r => r.2.2))
  ∧ (PipV.filterOutlierCols binwidth frac data y cols).2.1.length
        = (cols.filter (fun c => !(PipV.colBand frac y c.2).isEmpty)).length
  ∧ ∀ n x, x ∈ PipV.resizeZeros n (PipV.filterOutlierCols binwidth frac data y cols).2.1 →
      x ∈ (PipV.filterOutlierCols binwidth frac data y cols).2.1 ∨ x = Fp.fin 0 := by
  refine ?_
  have key : (PipV.filterOutlierCols binwidth frac data y cols).2.1
        = cols.filterMap (fun c =>
            (PipV.colResult binwidth frac data y c.1 c.2).map (fun r => r.2.1))
      ∧ (PipV.filterOutlierCols binwidth frac data y cols).2.2
        = cols.filterMap (fun c =>
            (PipV.colResult binwidth frac data y c.1 c.2).map (fun r => r.2.2))
      ∧ (PipV.filterOutlierCols binwidth frac data y cols).2.1.length
        = (cols.filter (fun c => !(PipV.colBand frac y c.2).isEmpty)).length := by
    induction cols with
    | nil => exact ⟨rfl, rfl, rfl⟩
    | cons c rest ih =>
        obtain ⟨ih1, ih2, ih3⟩ := ih
        rw [ih1] at ih3
        obtain ⟨d, z⟩ := c
        cases hc : PipV.colResult binwidth frac data y d z with
        | none =>
            have hb : PipV.colBand frac y z = [] :=
              (colResult_none_iff binwidth frac data y z d).mp hc
            refine ⟨?_, ?_, ?_⟩ <;>
              simp [PipV.filterOutlierCols, hc, hb, ih1, ih2, ih3,
                List.filterMap_cons, List.filter_cons]
        | some r =>
            have hb : ¬ PipV.colBand frac y z = [] := by
              intro hb0
              rw [← colResult_none_iff binwidth frac data y z d] at hb0
              rw [hc] at hb0
              exact Option.noConfusion hb0
            obtain ⟨fd, sv, hv⟩ := r
            refine ⟨?_, ?_, ?_⟩ <;>
              simp [PipV.filterOutlierCols, hc, hb, ih1, ih2, ih3,
                List.filterMap_cons, List.filter_cons]
  exact ⟨key.1, key.2.1, key.2.2,
    fun n x hx => resizeZeros_mem n _ x hx⟩

/-- Witness instantiation for `filter_outlier_passing_columns` at a
two-column grid whose first column has an empty band. -/
theorem filter_outlier_passing_columns_witness :
    (PipV.filterOutlierCols 1 (1/2) [⟨5,0⟩,⟨5,1⟩,⟨5,2⟩] [-1,0,1,2,3]
        [(1,[0,0,0,0,0]),(5,[1,1,1,1,1])]).2.1.length
      = ([((1:ℚ),[(0:ℚ),0,0,0,0]),(5,[1,1,1,1,1])].filter
          (fun c => !(PipV.colBand (1/2) [-1,0,1,2,3] c.2).isEmpty)).length :=
  (filter_outlier_passing_columns 1 (1/2) [⟨5,0⟩,⟨5,1⟩,⟨5,2⟩] [-1,0,1,2,3]
    [(1,[0,0,0,0,0]),(5,[1,1,1,1,1])]).2.2.1

/-- C8 counterexample: a two-column KDE grid (diameter bins 1 and 5,
velocity grid `[-1,0,1,2,3]`, `frac = 1/2`) where no point of the first
column clears the threshold, and three points with velocities 0, 1, 2 in
the second bin.  The claim requires per-bin arrays with NaN in the first
bin's slot; the code skips the first column, returns one-entry arrays
`[std of bin 5] = [1]` and `[half-width] = [2]`, and after `find_fit`'s
zero-resize the first slot holds bin 5's std and the second slot 0 —
no NaN anywhere. -/
theorem filter_outlier_skip_cex :
    (PipV.filterOutlierCols 1 (1/2) [⟨5,0⟩,⟨5,1⟩,⟨5,2⟩] [-1,0,1,2,3]
        [(1,[0,0,0,0,0]),(5,[1,1,1,1,1])]).2.1 = [Fp.fin 1]
  ∧ (PipV.filterOutlierCols 1 (1/2) [⟨5,0⟩,⟨5,1⟩,⟨5,2⟩] [-1,0,1,2,3]
        [(1,[0,0,0,0,0]),(5,[1,1,1,1,1])]).2.2 = [2]
  ∧ PipV.resizeZeros 2 [Fp.fin 1] = [Fp.fin 1, Fp.fin 0]
  ∧ Fp.nan ∉ PipV.resizeZeros 2 [Fp.fin 1] := by
  have h1 : PipV.colResult 1 (1/2) [⟨5,0⟩,⟨5,1⟩,⟨5,2⟩] [-1,0,1,2,3] 1
      [0,0,0,0,0] = none := by
    rw [colResult_none_iff]
    norm_num [PipV.colBand, List.zip]
  have h2 : PipV.colResult 1 (1/2) [⟨5,0⟩,⟨5,1⟩,⟨5,2⟩] [-1,0,1,2,3] 5 [1,1,1,1,1]
      = some ([⟨5,0⟩,⟨5,1⟩,⟨5,2⟩], Fp.fin 1, 2) := by
    have hband : PipV.colBand (1/2) [-1,0,1,2,3] [1,1,1,1,1] = [-1,0,1,2,3] := by
      norm_num [PipV.colBand, List.zip, List.filterMap_cons]
    have hdbin : PipV.dbin 1 5 (-1) 3 [⟨5,0⟩,⟨5,1⟩,⟨5,2⟩] = [⟨5,0⟩,⟨5,1⟩,⟨5,2⟩] := by
      norm_num [PipV.dbin, List.filter_cons]
    have hstd : PipV.sampleStdF [0,1,2] = Fp.fin 1 := by
      norm_num [PipV.sampleStdF, ratSqrt]
    unfold PipV.colResult
    rw [hband]
    norm_num [hdbin, hstd]
  simp only [one_div] at h1 h2
  refine ⟨?_, ?_, by decide, by decide⟩ <;>
    simp [PipV.filterOutlierCols, h1, h2]

/-- C10 (amended): `between_datetime` with `inplace=False` applies
`set_span` to a deep copy and leaves the receiver — instrument or Case —
completely unchanged.  For a generic instrument the copy's data is
restricted exactly to `[start, end]`; for a `Pluvio` (alone or inside a
`Case`) `set_span` keeps a two-hour buffer on each side whenever the
widened span fits inside the data range, so the copy's data may extend
up to two hours beyond the requested span; `Case.between_datetime`
additionally zeroes the copy's pluvio bias. -/
theorem between_datetime_frame (i : Instr) (p : Pluvio.PluvioData)
    (c : CaseModel) (s e : ℕ) :
    (Instr.between_datetime i s e false).1 = i
  ∧ (Instr.between_datetime i s e false).2 = Instr.set_span i s e
  ∧ (∀ x ∈ (Instr.between_datetime i s e false).2.data, s ≤ x.1 ∧ x.1 ≤ e)
  ∧ (Pluvio.between_datetime p s e false).1 = p
  ∧ (∀ x ∈ (Pluvio.between_datetime p s e false).2.samples,
        s - Pluvio.chosenBuffer p s e ≤ x.1 ∧ x.1 ≤ e + Pluvio.chosenBuffer p s e)
  ∧ (Case.between_datetime c s e false).1 = c
  ∧ (Case.between_datetime c s e false).2.pluvio.bias = 0
  ∧ (∀ x ∈ (Case.between_datetime c s e false).2.dsd.data, s ≤ x.1 ∧ x.1 ≤ e) := by
  refine ⟨rfl, rfl, ?_, rfl, ?_, rfl, rfl, ?_⟩
  · intro x hx
    have hx2 := List.mem_filter.mp hx
    simpa using hx2.2
  · intro x hx
    have hx2 := List.mem_filter.mp hx
    simpa using hx2.2
  · intro x hx
    have hx2 := List.mem_filter.mp hx
    simpa using hx2.2

/-- Witness instantiation for `between_datetime_frame`. -/
theorem between_datetime_frame_witness :
    ((15, 2) ∈ (Instr.between_datetime ⟨[(5,1),(15,2)]⟩ 10 20 false).2.data)
  ∧ (10 ≤ 15 ∧ 15 ≤ 20)
  ∧ (Instr.between_datetime ⟨[(5,1),(15,2)]⟩ 10 20 false).1 = ⟨[(5,1),(15,2)]⟩ :=
  ⟨by decide,
   (between_datetime_frame ⟨[(5,1),(15,2)]⟩ ⟨[],0,0⟩ ⟨⟨[],0,0⟩,⟨[]⟩,⟨[]⟩,true,none⟩
      10 20).2.2.1 (15, 2) (by decide),
   (between_datetime_frame ⟨[(5,1),(15,2)]⟩ ⟨[],0,0⟩ ⟨⟨[],0,0⟩,⟨[]⟩,⟨[]⟩,true,none⟩
      10 20).1⟩

/-- C10 counterexample: a `Pluvio` with samples every hour from 0 to
300 minutes, restricted with `between_datetime(130, 170,
inplace=False)`.  The requested window fits with two hours to spare, so
`set_span` keeps the buffer: the returned copy still contains the sample
at minute 60, outside the requested span — the new object's data is not
restricted to the requested time span.  (The receiver is unchanged, as
the claim says.) -/
theorem between_datetime_pluvio_buffer_cex :
    ((60 : ℕ), (1 : ℚ)) ∈ (Pluvio.between_datetime
        ⟨[(0,1),(60,1),(120,1),(180,1),(240,1),(300,1)],0,0⟩ 130 170 false).2.samples
  ∧ ¬ ((130 : ℕ) ≤ 60)
  ∧ (Pluvio.between_datetime
        ⟨[(0,1),(60,1),(120,1),(180,1),(240,1),(300,1)],0,0⟩ 130 170 false).1
      = ⟨[(0,1),(60,1),(120,1),(180,1),(240,1),(300,1)],0,0⟩ := by
  refine ⟨by decide, by decide, rfl⟩
